import Mathlib

/-!
Mandelbrot viewer: senders for rendering and input handling.

A shallow embedding of `include/sfml_renderer.hpp` and
`include/sfml_events_handler.hpp`, and of the computation pipeline that the
tests exercise, followed by the properties proved about them.

Conventions of the embedding.

* A receiver is the list of completion calls made on it, oldest first.
* An operation state holds by value what the C++ operation state holds by
  value or by reference; `start` maps the operation state before the call to
  the operation state after it.
* SFML objects are modelled by their documented effect, and the completion
  functions of a receiver are `noexcept`.  The `try` block of the renderer is
  left by the exception its body throws itself.  The body of the event handler
  has no `throw` of its own; an exception can reach its `catch (...)` only out
  of a call into the library, so the handler's `start` takes as an argument
  the call that throws, if any.
* `double` is a type parameter `α`; definitions use only the operations the
  source applies.  Properties that need exact arithmetic take `α` to be a
  linear ordered field; the others hold for every `α`.
-/

namespace Mandelbrot

/-! ## Completion protocol -/

/-- The argument of `set_error`: the `std::error_code` made from
`std::errc::invalid_argument`, the `std::exception_ptr` of a caught exception
(kept as its message), or the error of the pipeline for a malformed input
(the `InvalidInput` of section 7 of the specification). -/
inductive Error where
  | invalid_argument
  | exception_ptr (what : String)
  | invalid_input
  deriving DecidableEq, Repr

/-- One completion call on a receiver. -/
inductive Completion (τ : Type) where
  | set_value (v : τ)
  | set_error (e : Error)
  | set_stopped
  deriving DecidableEq, Repr

/-- How a `try` block was left: by reaching its end or a `return`, or by a
thrown exception. -/
inductive Flow where
  | returned
  | thrown (what : String)
  deriving DecidableEq, Repr

/-! ## Types of `types.hpp` -/

/-- Modelled from the spec: `RenderSettings` is declared in `types.hpp`, which
is not among the sources.  The spec gives it a pixel width, a pixel height and
`max_iterations`, all counts; the event handler assigns the `unsigned int` size
of a resize event to `width` and `height` and converts them to `int` before it
compares them with the mouse position. -/
structure RenderSettings where
  width : Nat
  height : Nat
  max_iterations : Nat
  deriving DecidableEq, Repr

/-- Modelled from the spec: one RGB triple of a `RenderResult` (declared in
`types.hpp`); the renderer reads its members `r`, `g` and `b`. -/
structure RgbColor where
  r : Nat
  g : Nat
  b : Nat
  deriving DecidableEq, Repr

/-- Modelled from the spec: `RenderResult` (declared in `types.hpp`), a
settings snapshot and a 2-D sequence of RGB triples; the renderer reads
`color_data`, the tests read `settings`. -/
structure RenderResult where
  settings : RenderSettings
  color_data : List (List RgbColor)
  deriving DecidableEq, Repr

/-! ## SFML objects used by the renderer -/

/-- An `sf::Color`. -/
structure Color where
  r : Nat
  g : Nat
  b : Nat
  a : Nat
  deriving DecidableEq, Repr

/-- The constant `sf::Color::Black`. -/
def Color.Black : Color := ⟨0, 0, 0, 255⟩

/-- The constructor `sf::Color(r, g, b)`; alpha defaults to 255. -/
def Color.rgb (r g b : Nat) : Color := ⟨r, g, b, 255⟩

/-- An `sf::Image`: its size and the colour of each pixel `(x, y)`.  Sizes and
coordinates are natural numbers. -/
structure Image where
  size_x : Nat
  size_y : Nat
  pixel : Nat → Nat → Color

/-- The call `image.create(width, height, color)`. -/
def Image.create (width height : Nat) (color : Color) : Image :=
  ⟨width, height, fun _ _ => color⟩

/-- The call `image.setPixel(x, y, color)`. -/
def Image.setPixel (img : Image) (x y : Nat) (color : Color) : Image :=
  { img with pixel := fun x' y' => if x' = x ∧ y' = y then color else img.pixel x' y' }

/-- An `sf::Texture`: the image last loaded into it, if any. -/
structure Texture where
  loaded : Option Image

/-- An `sf::Sprite`: the texture last set on it, if any. -/
structure Sprite where
  texture : Option Texture

/-- A call made on the `sf::RenderWindow` by the renderer. -/
inductive WindowCall where
  | clear
  | draw (sprite : Sprite)
  | display

/-! ## `SFMLRender` -/

/-- The operation state `SFMLRender::OperationState`. -/
structure SFMLRender.OperationState where
  receiver_ : List (Completion Unit)
  render_result_ : RenderResult
  image_ : Image
  texture_ : Texture
  sprite_ : Sprite
  window_ : List WindowCall
  render_settings_ : RenderSettings

/-- The inner loop `for (x = 0; x < width; ++x)` of the renderer for row `y`,
with `n` iterations left, so that `x = width - n`; it stops early at the first
`x` that is not below the length of the row. -/
def SFMLRender.colLoop (color_data : List (List RgbColor)) (y width : Nat) : Nat → Image → Image
  | 0, img => img
  | n + 1, img =>
    let x := width - (n + 1)
    if x ≥ (color_data.getD y []).length then img
    else
      let rgb_color := (color_data.getD y []).getD x ⟨0, 0, 0⟩
      let sf_color := Color.rgb rgb_color.r rgb_color.g rgb_color.b
      SFMLRender.colLoop color_data y width n (img.setPixel x y sf_color)

/-- The outer loop `for (y = 0; y < height; ++y)` of the renderer, with `m`
iterations left, so that `y = height - m`; it stops early at the first `y`
that is not below the number of rows. -/
def SFMLRender.rowLoop (color_data : List (List RgbColor)) (width height : Nat) :
    Nat → Image → Image
  | 0, img => img
  | m + 1, img =>
    let y := height - (m + 1)
    if y ≥ color_data.length then img
    else
      SFMLRender.rowLoop color_data width height m
        (SFMLRender.colLoop color_data y width width img)

/-- The `try` block of `tag_invoke(start_t, OperationState&)` of `SFMLRender`.
`loadOk` is the value returned by `texture_.loadFromImage(image_)`. -/
def SFMLRender.tryBlock (loadOk : Bool) (self : SFMLRender.OperationState) :
    Flow × SFMLRender.OperationState :=
  if self.render_result_.color_data.isEmpty then
    (Flow.returned, { self with receiver_ := self.receiver_ ++ [Completion.set_value ()] })
  else
    let height := self.render_result_.color_data.length
    let width := if height > 0 then (self.render_result_.color_data.getD 0 []).length else 0
    if width = 0 ∨ height = 0 then
      (Flow.returned,
        { self with receiver_ := self.receiver_ ++ [Completion.set_error Error.invalid_argument] })
    else
      let self := { self with image_ := Image.create width height Color.Black }
      let self := { self with
        image_ := SFMLRender.rowLoop self.render_result_.color_data width height height self.image_ }
      if !loadOk then
        (Flow.thrown "Failed to load texture from image", self)
      else
        let self := { self with texture_ := ⟨some self.image_⟩ }
        let self := { self with sprite_ := ⟨some self.texture_⟩ }
        let self := { self with window_ := self.window_ ++ [WindowCall.clear] }
        let self := { self with window_ := self.window_ ++ [WindowCall.draw self.sprite_] }
        let self := { self with window_ := self.window_ ++ [WindowCall.display] }
        (Flow.returned, { self with receiver_ := self.receiver_ ++ [Completion.set_value ()] })

/-- The function `tag_invoke(stdexec::start_t, OperationState&)` of `SFMLRender`:
the `try` block, and the `catch (...)` handler that completes with `set_error`
carrying the current exception. -/
def SFMLRender.start (loadOk : Bool) (self : SFMLRender.OperationState) :
    SFMLRender.OperationState :=
  match SFMLRender.tryBlock loadOk self with
  | (Flow.returned, self) => self
  | (Flow.thrown what, self) =>
    { self with receiver_ := self.receiver_ ++ [Completion.set_error (Error.exception_ptr what)] }

/-- The objects of `TEST(SFMLRenderTest, PipelineWorks)` connected to a sender
for `result`: a default image, texture, sprite and window, and a receiver on
which nothing has been called. -/
def SFMLRenderTest.op_state (result : RenderResult) : SFMLRender.OperationState :=
  { receiver_ := []
    render_result_ := result
    image_ := Image.create 0 0 Color.Black
    texture_ := ⟨none⟩
    sprite_ := ⟨none⟩
    window_ := []
    render_settings_ := result.settings }

/-! ## Types used by the event handler -/

/-- Modelled from the spec: `mandelbrot::ViewPort` is declared in a header that
is not among the sources.  It is the visible rectangle of the complex plane,
with members `x_min`, `x_max`, `y_min`, `y_max`. -/
structure ViewPort (α : Type) where
  x_min : α
  x_max : α
  y_min : α
  y_max : α
  deriving DecidableEq, Repr

/-- Modelled from the spec: the member function `ViewPort::width()`, the
derived width `x_max - x_min`. -/
def ViewPort.width {α : Type} [Sub α] (v : ViewPort α) : α := v.x_max - v.x_min

/-- Modelled from the spec: the member function `ViewPort::height()`, the
derived height `y_max - y_min`. -/
def ViewPort.height {α : Type} [Sub α] (v : ViewPort α) : α := v.y_max - v.y_min

/-- Modelled from the spec: `AppState` is declared in `types.hpp`, which is not
among the sources; its members are the ones the handler reads and writes. -/
structure AppState (α : Type) where
  viewport : ViewPort α
  need_rerender : Bool
  should_exit : Bool
  left_mouse_pressed : Bool
  right_mouse_pressed : Bool
  deriving DecidableEq, Repr

/-- The values of `event.key.code` the handler tells apart. -/
inductive Key where
  | Escape
  | other
  deriving DecidableEq, Repr

/-- The values of `event.mouseButton.button` the handler tells apart. -/
inductive Button where
  | Left
  | Right
  | other
  deriving DecidableEq, Repr

/-- An `sf::Event`, by the cases of the handler's `switch`. -/
inductive Event where
  | Closed
  | KeyPressed (code : Key)
  | MouseButtonPressed (button : Button)
  | MouseButtonReleased (button : Button)
  | Resized (width height : Nat)
  | other
  deriving DecidableEq, Repr

/-- What the handler observes of the `sf::RenderWindow`: the events that
`pollEvent` will hand out, in order, and the position `sf::Mouse::getPosition`
reports relative to the window. -/
structure Window where
  events : List Event
  mouse_x : Int
  mouse_y : Int
  deriving DecidableEq, Repr

/-- An `sf::Clock`: the value `getElapsedTime().asMilliseconds()` returns, and
the number of calls of `restart()` so far. -/
structure Clock where
  elapsed_ms : Int
  restarts : Nat
  deriving DecidableEq, Repr

/-- The call `clock.restart()`. -/
def Clock.restart (c : Clock) : Clock := ⟨0, c.restarts + 1⟩

/-- The conversion `static_cast<int>(n)` of a non-negative integer to the 32-bit
`int`: the value modulo `2^32`, taken in the range from `-2^31` to `2^31 - 1`. -/
def static_cast_int (n : Nat) : Int :=
  if n % 2 ^ 32 < 2 ^ 31 then ((n % 2 ^ 32 : Nat) : Int) else ((n % 2 ^ 32 : Nat) : Int) - 2 ^ 32

/-! ## `SfmlEventHandler` -/

/-- The operation state `SfmlEventHandler::OperationState`. -/
structure SfmlEventHandler.OperationState (α : Type) where
  receiver_ : List (Completion Unit)
  window_ : Window
  render_settings_ : RenderSettings
  state_ : AppState α
  zoom_clock_ : Clock
  deriving DecidableEq, Repr

/-- The constant `ZOOM_INTERVAL_MS = 100.0f`.  The handler compares the integer
`asMilliseconds()` with it after conversion to `float`; that conversion is
monotone and exact on 100, so the comparison is the integer one. -/
def SfmlEventHandler.ZOOM_INTERVAL_MS : Int := 100

/-- The calls into SFML that the body of the event handler makes:
`window_.pollEvent(event)` after `n` events have been handled,
`zoom_clock_.getElapsedTime()`, `sf::Mouse::getPosition(window_)` and
`zoom_clock_.restart()`. -/
inductive SfmlEventHandler.Call where
  | pollEvent (n : Nat)
  | getElapsedTime
  | getPosition
  | restart
  deriving DecidableEq, Repr

/-- The message of the exception that `call` throws under `fault`, the call
that throws (with the message of its exception) if there is one. -/
def SfmlEventHandler.thrownBy (fault : Option (SfmlEventHandler.Call × String))
    (call : SfmlEventHandler.Call) : Option String :=
  match fault with
  | none => none
  | some (c, what) => if c = call then some what else none

section Handler

variable {α : Type}

/-- The body of the `switch (event.type)` in `HandleEvents`, for one event. -/
def SfmlEventHandler.dispatch (event : Event) (self : SfmlEventHandler.OperationState α) :
    SfmlEventHandler.OperationState α :=
  match event with
  | Event.Closed => { self with state_ := { self.state_ with should_exit := true } }
  | Event.KeyPressed code =>
    if code = Key.Escape then { self with state_ := { self.state_ with should_exit := true } }
    else self
  | Event.MouseButtonPressed button =>
    if button = Button.Left then
      { self with state_ := { self.state_ with left_mouse_pressed := true } }
    else if button = Button.Right then
      { self with state_ := { self.state_ with right_mouse_pressed := true } }
    else self
  | Event.MouseButtonReleased button =>
    if button = Button.Left then
      { self with state_ := { self.state_ with left_mouse_pressed := false } }
    else if button = Button.Right then
      { self with state_ := { self.state_ with right_mouse_pressed := false } }
    else self
  | Event.Resized width height =>
    { self with
      render_settings_ := { self.render_settings_ with width := width, height := height }
      state_ := { self.state_ with need_rerender := true } }
  | Event.other => self

/-- The loop `while (window_.pollEvent(event))` of `HandleEvents` over the events
still queued. -/
def SfmlEventHandler.pollLoop :
    List Event → SfmlEventHandler.OperationState α → SfmlEventHandler.OperationState α
  | [], self => { self with window_ := { self.window_ with events := [] } }
  | event :: rest, self =>
    SfmlEventHandler.pollLoop rest
      (SfmlEventHandler.dispatch event { self with window_ := { self.window_ with events := rest } })

/-- The member function `HandleEvents`. -/
def SfmlEventHandler.HandleEvents (self : SfmlEventHandler.OperationState α) :
    SfmlEventHandler.OperationState α :=
  SfmlEventHandler.pollLoop self.window_.events self

/-- The loop `while (window_.pollEvent(event))` of `HandleEvents` when a call may
throw: `n` events have been handled so far; an exception out of `pollEvent`
leaves the loop with the operation state as it is at that call. -/
def SfmlEventHandler.pollLoop_throwing (fault : Option (SfmlEventHandler.Call × String)) :
    Nat → List Event → SfmlEventHandler.OperationState α →
      Flow × SfmlEventHandler.OperationState α
  | n, [], self =>
    match SfmlEventHandler.thrownBy fault (SfmlEventHandler.Call.pollEvent n) with
    | some what => (Flow.thrown what, self)
    | none => (Flow.returned, { self with window_ := { self.window_ with events := [] } })
  | n, event :: rest, self =>
    match SfmlEventHandler.thrownBy fault (SfmlEventHandler.Call.pollEvent n) with
    | some what => (Flow.thrown what, self)
    | none =>
      SfmlEventHandler.pollLoop_throwing fault (n + 1) rest
        (SfmlEventHandler.dispatch event
          { self with window_ := { self.window_ with events := rest } })

/-- The member function `HandleEvents` when a call may throw. -/
def SfmlEventHandler.HandleEvents_throwing (fault : Option (SfmlEventHandler.Call × String))
    (self : SfmlEventHandler.OperationState α) : Flow × SfmlEventHandler.OperationState α :=
  SfmlEventHandler.pollLoop_throwing fault 0 self.window_.events self

variable [Add α] [Sub α] [Mul α] [Div α] [One α] [NatCast α] [IntCast α]

/-- The member function `ZoomToPoint(pixel_x, pixel_y, zoom_in, factor)`. -/
def SfmlEventHandler.ZoomToPoint (self : SfmlEventHandler.OperationState α)
    (pixel_x pixel_y : Int) (zoom_in : Bool) (factor : α) : SfmlEventHandler.OperationState α :=
  let target_x : α := self.state_.viewport.x_min +
    ((pixel_x : α) / (self.render_settings_.width : α)) * self.state_.viewport.width
  let target_y : α := self.state_.viewport.y_min +
    ((pixel_y : α) / (self.render_settings_.height : α)) * self.state_.viewport.height
  let zoom_factor : α := if zoom_in then factor else 1 / factor
  let new_width : α := self.state_.viewport.width * zoom_factor
  let new_height : α := self.state_.viewport.height * zoom_factor
  let x_min : α := target_x - (target_x - self.state_.viewport.x_min) * zoom_factor
  let x_max : α := x_min + new_width
  let y_min : α := target_y - (target_y - self.state_.viewport.y_min) * zoom_factor
  let y_max : α := y_min + new_height
  { self with
    state_ := { self.state_ with
      viewport := { x_min := x_min, x_max := x_max, y_min := y_min, y_max := y_max }
      need_rerender := true } }

variable [OfScientific α]

/-- The member function `HandleContinuousZoom`; the call of `ZoomToPoint` takes
the default `factor = 0.8`. -/
def SfmlEventHandler.HandleContinuousZoom (self : SfmlEventHandler.OperationState α) :
    SfmlEventHandler.OperationState α :=
  if (self.state_.left_mouse_pressed || self.state_.right_mouse_pressed) &&
      decide (self.zoom_clock_.elapsed_ms ≥ SfmlEventHandler.ZOOM_INTERVAL_MS) then
    let mouse_pos_x := self.window_.mouse_x
    let mouse_pos_y := self.window_.mouse_y
    if mouse_pos_x ≥ 0 ∧ mouse_pos_x < static_cast_int self.render_settings_.width ∧
        mouse_pos_y ≥ 0 ∧ mouse_pos_y < static_cast_int self.render_settings_.height then
      let self := SfmlEventHandler.ZoomToPoint self mouse_pos_x mouse_pos_y
        self.state_.left_mouse_pressed (0.8 : α)
      { self with zoom_clock_ := self.zoom_clock_.restart }
    else self
  else self

/-- The member function `HandleContinuousZoom` when a call may throw.  The
clock is read only when a button flag is set (the `&&` of the source does not
evaluate its right side otherwise), the mouse position only when the interval
has passed, and the clock is restarted after `ZoomToPoint` has written the
viewport back. -/
def SfmlEventHandler.HandleContinuousZoom_throwing
    (fault : Option (SfmlEventHandler.Call × String))
    (self : SfmlEventHandler.OperationState α) : Flow × SfmlEventHandler.OperationState α :=
  if self.state_.left_mouse_pressed || self.state_.right_mouse_pressed then
    match SfmlEventHandler.thrownBy fault SfmlEventHandler.Call.getElapsedTime with
    | some what => (Flow.thrown what, self)
    | none =>
      if self.zoom_clock_.elapsed_ms ≥ SfmlEventHandler.ZOOM_INTERVAL_MS then
        match SfmlEventHandler.thrownBy fault SfmlEventHandler.Call.getPosition with
        | some what => (Flow.thrown what, self)
        | none =>
          let mouse_pos_x := self.window_.mouse_x
          let mouse_pos_y := self.window_.mouse_y
          if mouse_pos_x ≥ 0 ∧ mouse_pos_x < static_cast_int self.render_settings_.width ∧
              mouse_pos_y ≥ 0 ∧ mouse_pos_y < static_cast_int self.render_settings_.height then
            let self := SfmlEventHandler.ZoomToPoint self mouse_pos_x mouse_pos_y
              self.state_.left_mouse_pressed (0.8 : α)
            match SfmlEventHandler.thrownBy fault SfmlEventHandler.Call.restart with
            | some what => (Flow.thrown what, self)
            | none => (Flow.returned, { self with zoom_clock_ := self.zoom_clock_.restart })
          else (Flow.returned, self)
      else (Flow.returned, self)
  else (Flow.returned, self)

/-- The `try` block of `tag_invoke(start_t, OperationState&)` of
`SfmlEventHandler`: `HandleEvents()`, `HandleContinuousZoom()` and `set_value`;
an exception out of either member function leaves the block at once. -/
def SfmlEventHandler.tryBlock (fault : Option (SfmlEventHandler.Call × String))
    (self : SfmlEventHandler.OperationState α) : Flow × SfmlEventHandler.OperationState α :=
  match SfmlEventHandler.HandleEvents_throwing fault self with
  | (Flow.thrown what, self) => (Flow.thrown what, self)
  | (Flow.returned, self) =>
    match SfmlEventHandler.HandleContinuousZoom_throwing fault self with
    | (Flow.thrown what, self) => (Flow.thrown what, self)
    | (Flow.returned, self) =>
      (Flow.returned, { self with receiver_ := self.receiver_ ++ [Completion.set_value ()] })

/-- The function `tag_invoke(stdexec::start_t, OperationState&)` of
`SfmlEventHandler`: the `try` block, and the `catch (...)` handler that
completes with `set_error` carrying the current exception. -/
def SfmlEventHandler.start (fault : Option (SfmlEventHandler.Call × String))
    (self : SfmlEventHandler.OperationState α) : SfmlEventHandler.OperationState α :=
  match SfmlEventHandler.tryBlock fault self with
  | (Flow.returned, self) => self
  | (Flow.thrown what, self) =>
    { self with receiver_ := self.receiver_ ++ [Completion.set_error (Error.exception_ptr what)] }

end Handler

/-- An operation state as `TEST(SfmlEventHandlerTest, PipelineWorks)` connects
it, over exact rational arithmetic: a window without pending events and with the
mouse at `(mouse_x, mouse_y)`, a viewport from `-2` to `1` and from `-1` to `1`,
the given settings, mouse-button flags and clock reading, and a receiver on
which nothing has been called. -/
def SfmlEventHandlerTest.op_state (settings : RenderSettings) (mouse_x mouse_y : Int)
    (left right : Bool) (elapsed_ms : Int) : SfmlEventHandler.OperationState ℚ :=
  { receiver_ := []
    window_ := ⟨[], mouse_x, mouse_y⟩
    render_settings_ := settings
    state_ := ⟨⟨-2, 1, -1, 1⟩, false, false, left, right⟩
    zoom_clock_ := ⟨elapsed_ms, 0⟩ }

/-! ## The computation pipeline

The headers `mandelbrot_sender.hpp`, `mandelbrot.hpp` and
`mandelbrot_renderer.hpp` are not among the sources; only the tests that use
them are.  The definitions of this section follow sections 3, 4 and 7 of the
specification. -/

/-- Modelled from the spec: `PixelRegion` (declared in `types.hpp`), a
sub-rectangle of the output raster; the test builds it as
`{start_row, end_row, start_col, end_col}`. -/
structure PixelRegion where
  start_row : Nat
  end_row : Nat
  start_col : Nat
  end_col : Nat
  deriving DecidableEq, Repr

/-- Modelled from the spec: `PixelMatrix` (declared in `types.hpp`), ordered
rows of iteration counts. -/
abbrev PixelMatrix := List (List Nat)

section Pipeline

variable {α : Type} [Add α] [Sub α] [Mul α] [Div α] [NatCast α] [LT α]
  [DecidableRel (fun (a b : α) => a < b)]

/-- Modelled from the spec: the loop of the escape-time kernel, which is in a
header that is not among the sources.  With `k` iterations left the orbit is at
`z_n`, `n = max_iterations - k`; the squared magnitude is compared with 4, and
the orbit advances by `z ↦ z² + c`. -/
def EscapeTimeKernel.iterate (c_re c_im : α) (max_iterations : Nat) : Nat → α → α → Nat
  | 0, _, _ => max_iterations
  | k + 1, z_re, z_im =>
    if ((4 : Nat) : α) < z_re * z_re + z_im * z_im then max_iterations - (k + 1)
    else
      EscapeTimeKernel.iterate c_re c_im max_iterations k
        (z_re * z_re - z_im * z_im + c_re) (((2 : Nat) : α) * z_re * z_im + c_im)

/-- Modelled from the spec: the escape-time kernel (spec 4.1), which is in a
header that is not among the sources: the smallest `n` at which the orbit of
`z_0 = 0` under `z ↦ z² + c` has `|z_n| > 2`, and `max_iterations` if there is
none within the bound. -/
def EscapeTimeKernel (c_re c_im : α) (max_iterations : Nat) : Nat :=
  EscapeTimeKernel.iterate c_re c_im max_iterations max_iterations ((0 : Nat) : α) ((0 : Nat) : α)

/-- Modelled from the spec: the region evaluator (spec 4.2), which is in a
header that is not among the sources.  Each raster coordinate of the region is
mapped to the complex plane by linear interpolation across the viewport, with
the width and height of the full frame as denominators, and the kernel's count
is recorded. -/
def RegionEvaluator (viewport : ViewPort α) (settings : RenderSettings) (region : PixelRegion) :
    PixelMatrix :=
  (List.range' region.start_row (region.end_row - region.start_row)).map fun (row : Nat) =>
    (List.range' region.start_col (region.end_col - region.start_col)).map fun (col : Nat) =>
      EscapeTimeKernel
        (viewport.x_min + ((col : α) / (settings.width : α)) * viewport.width)
        (viewport.y_min + ((row : α) / (settings.height : α)) * viewport.height)
        settings.max_iterations

/-- Modelled from the spec: the sender made by `MakeMandelbrotSender`, which is
in `mandelbrot_sender.hpp`, not among the sources; the value is the completion
it delivers when connected and started.  A region whose bounds are inverted or
lie outside the frame fails at once (spec 4.2); any other region completes with
the matrix of the region evaluator. -/
def MakeMandelbrotSender (viewport : ViewPort α) (settings : RenderSettings)
    (region : PixelRegion) : Completion PixelMatrix :=
  if region.start_row ≤ region.end_row ∧ region.end_row ≤ settings.height ∧
      region.start_col ≤ region.end_col ∧ region.end_col ≤ settings.width then
    Completion.set_value (RegionEvaluator viewport settings region)
  else
    Completion.set_error Error.invalid_input

/-- Modelled from the spec: the operation "compute frame" (spec 4.3, 5, 7),
which is in a header that is not among the sources.  `stop` tells whether the
surrounding session was torn down before completion.  A zero-area frame
completes with the empty matrix; a viewport with inverted bounds is an invalid
input; otherwise the joined matrix equals the evaluation of the whole frame as
one region (spec 8). -/
def ComputeFrame (stop : Bool) (viewport : ViewPort α) (settings : RenderSettings) :
    Completion PixelMatrix :=
  if stop then Completion.set_stopped
  else if settings.width = 0 ∨ settings.height = 0 then Completion.set_value []
  else if viewport.x_min < viewport.x_max ∧ viewport.y_min < viewport.y_max then
    Completion.set_value
      (RegionEvaluator viewport settings ⟨0, settings.height, 0, settings.width⟩)
  else Completion.set_error Error.invalid_input

/-- Modelled from the spec: the colour of one iteration count (spec 4.4), which
is in a header that is not among the sources: `max_iterations` is black, lower
counts go through a grey ramp keyed on the count alone. -/
def ColorMapper.color (settings : RenderSettings) (count : Nat) : RgbColor :=
  if count ≥ settings.max_iterations then ⟨0, 0, 0⟩
  else
    let grey := 255 - count * 255 / settings.max_iterations
    ⟨grey, grey, grey⟩

/-- Modelled from the spec: the colour mapper (spec 4.4), which is in a header
that is not among the sources: one RGB triple per cell; an empty matrix gives
an empty colour buffer. -/
def ColorMapper (matrix : PixelMatrix) (settings : RenderSettings) : RenderResult :=
  { settings := settings, color_data := matrix.map fun row => row.map (ColorMapper.color settings) }

/-- Modelled from the spec: the operation state of
`CalculateMandelbrotAsyncSender`, which is in a header that is not among the
sources; the test builds the sender from an `AppState`, the `RenderSettings`
and a renderer, and reads `receiver_` of the operation state. -/
structure CalculateMandelbrotAsyncSender.OperationState (α : Type) where
  receiver_ : List (Completion RenderResult)
  state_ : AppState α
  settings_ : RenderSettings

/-- Modelled from the spec: the start of the `CalculateMandelbrotAsyncSender`
operation, which is in a header that is not among the sources.  It takes a
snapshot of the viewport, computes the frame, and once that attempt has
completed with success or with an error it clears `need_rerender` (spec 4.5, 8)
and hands on the colour buffer or the error; a stopped computation is handed on
as stopped. -/
def CalculateMandelbrotAsyncSender.start (stop : Bool)
    (self : CalculateMandelbrotAsyncSender.OperationState α) :
    CalculateMandelbrotAsyncSender.OperationState α :=
  let viewport := self.state_.viewport
  match ComputeFrame stop viewport self.settings_ with
  | Completion.set_value matrix =>
    { self with
      state_ := { self.state_ with need_rerender := false }
      receiver_ := self.receiver_ ++ [Completion.set_value (ColorMapper matrix self.settings_)] }
  | Completion.set_error e =>
    { self with
      state_ := { self.state_ with need_rerender := false }
      receiver_ := self.receiver_ ++ [Completion.set_error e] }
  | Completion.set_stopped =>
    { self with receiver_ := self.receiver_ ++ [Completion.set_stopped] }

end Pipeline

/-- The operation state of `TEST(CalculateMandelbrotAsyncSenderTest,
PipelineWorks)` over exact rational arithmetic: an `AppState` that asks for a
render of the given viewport, the given settings, and a receiver on which
nothing has been called. -/
def CalculateMandelbrotAsyncSenderTest.op_state (viewport : ViewPort ℚ)
    (settings : RenderSettings) : CalculateMandelbrotAsyncSender.OperationState ℚ :=
  { receiver_ := []
    state_ := ⟨viewport, true, false, false, false⟩
    settings_ := settings }

/-! ## Properties of `SFMLRender` -/

/-- The `try` block of the renderer on an empty colour buffer. -/
theorem SFMLRender.tryBlock_empty (loadOk : Bool) (self : SFMLRender.OperationState)
    (h : self.render_result_.color_data = []) :
    SFMLRender.tryBlock loadOk self =
      (Flow.returned, { self with receiver_ := self.receiver_ ++ [Completion.set_value ()] }) := by
  simp [SFMLRender.tryBlock, h]

/-- The `try` block of the renderer on a colour buffer whose first row is
empty. -/
theorem SFMLRender.tryBlock_zero_width (loadOk : Bool) (self : SFMLRender.OperationState)
    (rest : List (List RgbColor)) (h : self.render_result_.color_data = [] :: rest) :
    SFMLRender.tryBlock loadOk self =
      (Flow.returned,
        { self with
          receiver_ := self.receiver_ ++ [Completion.set_error Error.invalid_argument] }) := by
  simp [SFMLRender.tryBlock, h]

/-- The `try` block of the renderer on a colour buffer with a non-empty first
row. -/
theorem SFMLRender.start_render (loadOk : Bool) (self : SFMLRender.OperationState)
    (first : List RgbColor) (rest : List (List RgbColor))
    (h : self.render_result_.color_data = first :: rest) (hw : 0 < first.length) :
    (SFMLRender.start loadOk self).image_ =
        SFMLRender.rowLoop (first :: rest) first.length (rest.length + 1) (rest.length + 1)
          (Image.create first.length (rest.length + 1) Color.Black) ∧
      (SFMLRender.start loadOk self).receiver_ =
        self.receiver_ ++
          [if loadOk then Completion.set_value ()
            else Completion.set_error (Error.exception_ptr "Failed to load texture from image")] := by
  have hw' : first.length ≠ 0 := by omega
  cases loadOk <;> simp [SFMLRender.start, SFMLRender.tryBlock, h, hw']

/-- C1: when `color_data` has no rows, starting the `SFMLRender` operation makes
the single call `set_value` on the receiver and renders nothing: the image, the
texture, the sprite and the window (no `clear`, `draw` or `display`) are as
they were before the start. -/
theorem SFMLRender.start_empty_is_noop (loadOk : Bool) (self : SFMLRender.OperationState)
    (h : self.render_result_.color_data = []) :
    (SFMLRender.start loadOk self).receiver_ = self.receiver_ ++ [Completion.set_value ()] ∧
      (SFMLRender.start loadOk self).image_ = self.image_ ∧
      (SFMLRender.start loadOk self).texture_ = self.texture_ ∧
      (SFMLRender.start loadOk self).sprite_ = self.sprite_ ∧
      (SFMLRender.start loadOk self).window_ = self.window_ := by
  simp [SFMLRender.start, SFMLRender.tryBlock_empty loadOk self h]

/-- C1 at the objects of `TEST(SFMLRenderTest, PipelineWorks)`, whose result is
empty. -/
theorem SFMLRender.start_empty_is_noop_witness :
    (SFMLRender.start true (SFMLRenderTest.op_state ⟨⟨800, 600, 100⟩, []⟩)).receiver_ =
        [] ++ [Completion.set_value ()] ∧
      (SFMLRender.start true (SFMLRenderTest.op_state ⟨⟨800, 600, 100⟩, []⟩)).image_ =
        Image.create 0 0 Color.Black ∧
      (SFMLRender.start true (SFMLRenderTest.op_state ⟨⟨800, 600, 100⟩, []⟩)).texture_ = ⟨none⟩ ∧
      (SFMLRender.start true (SFMLRenderTest.op_state ⟨⟨800, 600, 100⟩, []⟩)).sprite_ = ⟨none⟩ ∧
      (SFMLRender.start true (SFMLRenderTest.op_state ⟨⟨800, 600, 100⟩, []⟩)).window_ = [] :=
  SFMLRender.start_empty_is_noop true (SFMLRenderTest.op_state ⟨⟨800, 600, 100⟩, []⟩) rfl

/-- C2, the claim as stated fails: a colour buffer with one row of width 0 is a
zero-area input, and the start completes with `set_error` carrying
`invalid_argument`, not with `set_value`. -/
theorem SFMLRender.start_zero_width_row_is_error :
    (SFMLRenderTest.op_state ⟨⟨800, 600, 100⟩, [[]]⟩).render_result_.color_data.length = 1 ∧
      ((SFMLRenderTest.op_state ⟨⟨800, 600, 100⟩, [[]]⟩).render_result_.color_data.getD 0
        []).length = 0 ∧
      (SFMLRender.start true (SFMLRenderTest.op_state ⟨⟨800, 600, 100⟩, [[]]⟩)).receiver_ =
        [Completion.set_error Error.invalid_argument] ∧
      (SFMLRender.start true (SFMLRenderTest.op_state ⟨⟨800, 600, 100⟩, [[]]⟩)).receiver_ ≠
        [Completion.set_value ()] := by
  refine ⟨rfl, rfl, rfl, by decide⟩

/-- C2, amended: when `color_data` has no rows, the start of `SFMLRender`
completes with `set_value` and not with `set_error`; when `color_data` has one
or more rows and its first row has width 0, the start completes with
`set_error` carrying `invalid_argument` and not with `set_value`. -/
theorem SFMLRender.start_zero_area (loadOk : Bool) (self : SFMLRender.OperationState) :
    (self.render_result_.color_data = [] →
      (SFMLRender.start loadOk self).receiver_ = self.receiver_ ++ [Completion.set_value ()]) ∧
    (∀ rest : List (List RgbColor), self.render_result_.color_data = [] :: rest →
      (SFMLRender.start loadOk self).receiver_ =
        self.receiver_ ++ [Completion.set_error Error.invalid_argument]) := by
  constructor
  · intro h
    simp [SFMLRender.start, SFMLRender.tryBlock_empty loadOk self h]
  · intro rest h
    simp [SFMLRender.start, SFMLRender.tryBlock_zero_width loadOk self rest h]

/-- C2, amended, at a buffer without rows and at a buffer of two empty rows. -/
theorem SFMLRender.start_zero_area_witness :
    (SFMLRender.start true (SFMLRenderTest.op_state ⟨⟨800, 600, 100⟩, []⟩)).receiver_ =
        [] ++ [Completion.set_value ()] ∧
      (SFMLRender.start true (SFMLRenderTest.op_state ⟨⟨800, 600, 100⟩, [[], []]⟩)).receiver_ =
        [] ++ [Completion.set_error Error.invalid_argument] :=
  ⟨(SFMLRender.start_zero_area true (SFMLRenderTest.op_state ⟨⟨800, 600, 100⟩, []⟩)).1 rfl,
    (SFMLRender.start_zero_area true (SFMLRenderTest.op_state ⟨⟨800, 600, 100⟩, [[], []]⟩)).2
      [[]] rfl⟩

/-- C6: `ZoomToPoint` preserves the `ViewPort` invariant.  In exact arithmetic,
for a viewport with `x_max > x_min` and `y_max > y_min`, every pixel, either
zoom direction and every `factor > 0` (and every render width and height), the
viewport written back has `x_max > x_min` and `y_max > y_min`, so its `width()`
and `height()` are not zero. -/
theorem SfmlEventHandler.ZoomToPoint_preserves_invariant {α : Type} [LinearOrderedField α]
    (self : SfmlEventHandler.OperationState α) (pixel_x pixel_y : Int) (zoom_in : Bool)
    (factor : α) (hfactor : 0 < factor)
    (hx : self.state_.viewport.x_min < self.state_.viewport.x_max)
    (hy : self.state_.viewport.y_min < self.state_.viewport.y_max) :
    (SfmlEventHandler.ZoomToPoint self pixel_x pixel_y zoom_in factor).state_.viewport.x_min <
        (SfmlEventHandler.ZoomToPoint self pixel_x pixel_y zoom_in factor).state_.viewport.x_max ∧
      (SfmlEventHandler.ZoomToPoint self pixel_x pixel_y zoom_in factor).state_.viewport.y_min <
        (SfmlEventHandler.ZoomToPoint self pixel_x pixel_y zoom_in factor).state_.viewport.y_max ∧
      (SfmlEventHandler.ZoomToPoint self pixel_x pixel_y zoom_in factor).state_.viewport.width ≠ 0 ∧
      (SfmlEventHandler.ZoomToPoint self pixel_x pixel_y zoom_in factor).state_.viewport.height ≠ 0
    := by
  have hz : 0 < (if zoom_in = true then factor else 1 / factor) := by
    split
    · exact hfactor
    · exact one_div_pos.2 hfactor
  have hwx : 0 < (self.state_.viewport.x_max - self.state_.viewport.x_min) *
      (if zoom_in = true then factor else 1 / factor) := mul_pos (sub_pos.2 hx) hz
  have hwy : 0 < (self.state_.viewport.y_max - self.state_.viewport.y_min) *
      (if zoom_in = true then factor else 1 / factor) := mul_pos (sub_pos.2 hy) hz
  simp only [SfmlEventHandler.ZoomToPoint, ViewPort.width, ViewPort.height]
  refine ⟨lt_add_of_pos_right _ hwx, lt_add_of_pos_right _ hwy, ?_, ?_⟩
  · rw [add_sub_cancel_left]; exact ne_of_gt hwx
  · rw [add_sub_cancel_left]; exact ne_of_gt hwy

/-- C6 at a zoom out by `4/5` about pixel `(200, 450)` of an 800 by 600 frame. -/
theorem SfmlEventHandler.ZoomToPoint_preserves_invariant_witness :
    (SfmlEventHandler.ZoomToPoint (SfmlEventHandlerTest.op_state ⟨800, 600, 100⟩ 0 0 true false 0)
          200 450 false (4 / 5)).state_.viewport.x_min <
        (SfmlEventHandler.ZoomToPoint (SfmlEventHandlerTest.op_state ⟨800, 600, 100⟩ 0 0 true false 0)
          200 450 false (4 / 5)).state_.viewport.x_max ∧
      (SfmlEventHandler.ZoomToPoint (SfmlEventHandlerTest.op_state ⟨800, 600, 100⟩ 0 0 true false 0)
          200 450 false (4 / 5)).state_.viewport.y_min <
        (SfmlEventHandler.ZoomToPoint (SfmlEventHandlerTest.op_state ⟨800, 600, 100⟩ 0 0 true false 0)
          200 450 false (4 / 5)).state_.viewport.y_max ∧
      (SfmlEventHandler.ZoomToPoint (SfmlEventHandlerTest.op_state ⟨800, 600, 100⟩ 0 0 true false 0)
          200 450 false (4 / 5)).state_.viewport.width ≠ 0 ∧
      (SfmlEventHandler.ZoomToPoint (SfmlEventHandlerTest.op_state ⟨800, 600, 100⟩ 0 0 true false 0)
          200 450 false (4 / 5)).state_.viewport.height ≠ 0 :=
  SfmlEventHandler.ZoomToPoint_preserves_invariant
    (SfmlEventHandlerTest.op_state ⟨800, 600, 100⟩ 0 0 true false 0) 200 450 false (4 / 5)
    (by norm_num) (by norm_num [SfmlEventHandlerTest.op_state])
    (by norm_num [SfmlEventHandlerTest.op_state])

/-- C8: `ZoomToPoint` scales the viewport by the zoom factor and keeps the point
under the cursor fixed.  In exact arithmetic, with `z = factor` when zooming in
and `z = 1 / factor` when zooming out, the new width is the old width times `z`,
the new height is the old height times `z`, and the coordinate
`x_min + (pixel_x / width) * width()` is the same before and after, likewise
`y_min + (pixel_y / height) * height()`. -/
theorem SfmlEventHandler.ZoomToPoint_scales_about_cursor {α : Type} [LinearOrderedField α]
    (self : SfmlEventHandler.OperationState α) (pixel_x pixel_y : Int) (zoom_in : Bool)
    (factor : α) :
    (SfmlEventHandler.ZoomToPoint self pixel_x pixel_y zoom_in factor).state_.viewport.width =
        self.state_.viewport.width * (if zoom_in then factor else 1 / factor) ∧
      (SfmlEventHandler.ZoomToPoint self pixel_x pixel_y zoom_in factor).state_.viewport.height =
        self.state_.viewport.height * (if zoom_in then factor else 1 / factor) ∧
      (SfmlEventHandler.ZoomToPoint self pixel_x pixel_y zoom_in factor).state_.viewport.x_min +
          ((pixel_x : α) / (self.render_settings_.width : α)) *
            (SfmlEventHandler.ZoomToPoint self pixel_x pixel_y zoom_in
              factor).state_.viewport.width =
        self.state_.viewport.x_min +
          ((pixel_x : α) / (self.render_settings_.width : α)) * self.state_.viewport.width ∧
      (SfmlEventHandler.ZoomToPoint self pixel_x pixel_y zoom_in factor).state_.viewport.y_min +
          ((pixel_y : α) / (self.render_settings_.height : α)) *
            (SfmlEventHandler.ZoomToPoint self pixel_x pixel_y zoom_in
              factor).state_.viewport.height =
        self.state_.viewport.y_min +
          ((pixel_y : α) / (self.render_settings_.height : α)) * self.state_.viewport.height := by
  simp only [SfmlEventHandler.ZoomToPoint, ViewPort.width, ViewPort.height]
  generalize (if zoom_in = true then factor else 1 / factor) = z
  generalize ((pixel_x : α) / (self.render_settings_.width : α)) = tx
  generalize ((pixel_y : α) / (self.render_settings_.height : α)) = ty
  refine ⟨by ring, by ring, by ring, by ring⟩

/-- C9: zooming in and then out at the same pixel with the same factor is a
round trip on the viewport.  In exact arithmetic, for every viewport, every
pixel, every render width and height and every `factor > 0`, `ZoomToPoint` with
`zoom_in = true` followed by `ZoomToPoint` with `zoom_in = false` leaves `x_min`,
`x_max`, `y_min` and `y_max` at their original values. -/
theorem SfmlEventHandler.ZoomToPoint_in_then_out {α : Type} [LinearOrderedField α]
    (self : SfmlEventHandler.OperationState α) (pixel_x pixel_y : Int) (factor : α)
    (hfactor : 0 < factor) :
    (SfmlEventHandler.ZoomToPoint (SfmlEventHandler.ZoomToPoint self pixel_x pixel_y true factor)
        pixel_x pixel_y false factor).state_.viewport = self.state_.viewport := by
  have hf : factor ≠ 0 := ne_of_gt hfactor
  cases hs : self with
  | mk receiver_ window_ render_settings_ state_ zoom_clock_ =>
    cases state_ with
    | mk viewport need_rerender should_exit left_mouse_pressed right_mouse_pressed =>
      cases viewport with
      | mk x_min x_max y_min y_max =>
        simp only [SfmlEventHandler.ZoomToPoint, ViewPort.width, ViewPort.height, if_true,
          Bool.false_eq_true, if_false, ViewPort.mk.injEq]
        generalize ((pixel_x : α) / (render_settings_.width : α)) = tx
        generalize ((pixel_y : α) / (render_settings_.height : α)) = ty
        refine ⟨?_, ?_, ?_, ?_⟩ <;> field_simp <;> ring

/-- C9 at factor `4/5` and pixel `(200, 450)` of an 800 by 600 frame. -/
theorem SfmlEventHandler.ZoomToPoint_in_then_out_witness :
    (SfmlEventHandler.ZoomToPoint
        (SfmlEventHandler.ZoomToPoint
          (SfmlEventHandlerTest.op_state ⟨800, 600, 100⟩ 0 0 true false 0) 200 450 true (4 / 5))
        200 450 false (4 / 5)).state_.viewport =
      (SfmlEventHandlerTest.op_state ⟨800, 600, 100⟩ 0 0 true false 0).state_.viewport :=
  SfmlEventHandler.ZoomToPoint_in_then_out
    (SfmlEventHandlerTest.op_state ⟨800, 600, 100⟩ 0 0 true false 0) 200 450 (4 / 5) (by norm_num)

/-- Handling one event makes no call on the receiver. -/
theorem SfmlEventHandler.dispatch_receiver {α : Type} (event : Event)
    (self : SfmlEventHandler.OperationState α) :
    (SfmlEventHandler.dispatch event self).receiver_ = self.receiver_ := by
  cases event <;> simp only [SfmlEventHandler.dispatch] <;> repeat (first | rfl | split)

/-- The event loop makes no call on the receiver. -/
theorem SfmlEventHandler.pollLoop_receiver {α : Type} (events : List Event)
    (self : SfmlEventHandler.OperationState α) :
    (SfmlEventHandler.pollLoop events self).receiver_ = self.receiver_ := by
  induction events generalizing self with
  | nil => rfl
  | cons event rest ih =>
    simp only [SfmlEventHandler.pollLoop]
    rw [ih, SfmlEventHandler.dispatch_receiver]

/-- The continuous zoom makes no call on the receiver. -/
theorem SfmlEventHandler.HandleContinuousZoom_receiver {α : Type} [Add α] [Sub α] [Mul α]
    [Div α] [One α] [NatCast α] [IntCast α] [OfScientific α]
    (self : SfmlEventHandler.OperationState α) :
    (SfmlEventHandler.HandleContinuousZoom self).receiver_ = self.receiver_ := by
  unfold SfmlEventHandler.HandleContinuousZoom
  split
  · dsimp only
    split
    · rfl
    · rfl
  · rfl

/-- The event loop with a possibly throwing call makes no call on the receiver. -/
theorem SfmlEventHandler.pollLoop_throwing_receiver {α : Type}
    (fault : Option (SfmlEventHandler.Call × String)) (events : List Event) (n : Nat)
    (self : SfmlEventHandler.OperationState α) :
    (SfmlEventHandler.pollLoop_throwing fault n events self).2.receiver_ = self.receiver_ := by
  induction events generalizing n self with
  | nil =>
    simp only [SfmlEventHandler.pollLoop_throwing]
    split <;> rfl
  | cons event rest ih =>
    simp only [SfmlEventHandler.pollLoop_throwing]
    split
    · rfl
    · rw [ih, SfmlEventHandler.dispatch_receiver]

/-- When no call throws, the event loop returns the state of `pollLoop`. -/
theorem SfmlEventHandler.pollLoop_throwing_none {α : Type} (events : List Event) (n : Nat)
    (self : SfmlEventHandler.OperationState α) :
    SfmlEventHandler.pollLoop_throwing none n events self =
      (Flow.returned, SfmlEventHandler.pollLoop events self) := by
  induction events generalizing n self with
  | nil => rfl
  | cons event rest ih =>
    simp only [SfmlEventHandler.pollLoop_throwing, SfmlEventHandler.thrownBy,
      SfmlEventHandler.pollLoop]
    exact ih _ _

/-- The continuous zoom with a possibly throwing call makes no call on the
receiver. -/
theorem SfmlEventHandler.HandleContinuousZoom_throwing_receiver {α : Type} [Add α] [Sub α]
    [Mul α] [Div α] [One α] [NatCast α] [IntCast α] [OfScientific α]
    (fault : Option (SfmlEventHandler.Call × String))
    (self : SfmlEventHandler.OperationState α) :
    (SfmlEventHandler.HandleContinuousZoom_throwing fault self).2.receiver_ = self.receiver_ := by
  unfold SfmlEventHandler.HandleContinuousZoom_throwing
  split
  · split
    · rfl
    · split
      · split
        · rfl
        · dsimp only
          split
          · split <;> rfl
          · rfl
      · rfl
  · rfl

/-- When no call throws, the continuous zoom returns the state of
`HandleContinuousZoom`. -/
theorem SfmlEventHandler.HandleContinuousZoom_throwing_none {α : Type} [Add α] [Sub α]
    [Mul α] [Div α] [One α] [NatCast α] [IntCast α] [OfScientific α]
    (self : SfmlEventHandler.OperationState α) :
    SfmlEventHandler.HandleContinuousZoom_throwing none self =
      (Flow.returned, SfmlEventHandler.HandleContinuousZoom self) := by
  unfold SfmlEventHandler.HandleContinuousZoom_throwing SfmlEventHandler.HandleContinuousZoom
  simp only [SfmlEventHandler.thrownBy]
  by_cases hb : (self.state_.left_mouse_pressed || self.state_.right_mouse_pressed) = true
  · by_cases hc : self.zoom_clock_.elapsed_ms ≥ SfmlEventHandler.ZOOM_INTERVAL_MS
    · simp only [hb, hc, if_true, decide_True, Bool.and_self]
      split <;> rfl
    · simp only [hb, hc, if_true, if_false, decide_False, Bool.and_false, Bool.false_eq_true]
  · simp only [hb, if_false, Bool.false_and, Bool.false_eq_true,
      Bool.not_eq_true _ |>.mp hb]

/-- What the `try` block of the event handler leaves on the receiver: nothing
when it is left by an exception, `set_value` when it returns. -/
theorem SfmlEventHandler.tryBlock_receiver {α : Type} [Add α] [Sub α] [Mul α] [Div α]
    [One α] [NatCast α] [IntCast α] [OfScientific α]
    (fault : Option (SfmlEventHandler.Call × String))
    (self : SfmlEventHandler.OperationState α) :
    (SfmlEventHandler.tryBlock fault self).2.receiver_ =
      match (SfmlEventHandler.tryBlock fault self).1 with
      | Flow.returned => self.receiver_ ++ [Completion.set_value ()]
      | Flow.thrown _ => self.receiver_ := by
  have h1 := SfmlEventHandler.pollLoop_throwing_receiver fault self.window_.events 0 self
  unfold SfmlEventHandler.tryBlock SfmlEventHandler.HandleEvents_throwing
  rcases hE : SfmlEventHandler.pollLoop_throwing fault 0 self.window_.events self with ⟨f1, s1⟩
  rw [hE] at h1
  cases f1 with
  | thrown what => exact h1
  | returned =>
    have h2 := SfmlEventHandler.HandleContinuousZoom_throwing_receiver fault s1
    dsimp only
    rcases hZ : SfmlEventHandler.HandleContinuousZoom_throwing fault s1 with ⟨f2, s2⟩
    rw [hZ] at h2
    cases f2 with
    | thrown what => exact h2.trans h1
    | returned =>
      show s2.receiver_ ++ [Completion.set_value ()] = self.receiver_ ++ [Completion.set_value ()]
      rw [show s2.receiver_ = self.receiver_ from h2.trans h1]

/-! ## Exactly one completion -/

/-- C3: one start of the `SFMLRender` operation and one start of the
`SfmlEventHandler` operation each make exactly one completion call on the
receiver, on every path.  The renderer calls `set_value` on an empty colour
buffer, `set_error` with `invalid_argument` when the first row is empty,
`set_error` with the caught exception when `loadFromImage` fails and the body
throws, and `set_value` otherwise.  The event handler calls `set_value` when its
`try` block returns and `set_error` with the caught exception when the block is
left by an exception, whichever call threw it; it returns when no call throws,
and it is left by the exception when, for one, the first `pollEvent` throws.
Neither calls `set_stopped`. -/
theorem exactly_one_completion :
    (∀ (loadOk : Bool) (self : SFMLRender.OperationState),
      (SFMLRender.start loadOk self).receiver_ = self.receiver_ ++
        [if self.render_result_.color_data = [] then Completion.set_value ()
          else if (self.render_result_.color_data.getD 0 []).length = 0 then
            Completion.set_error Error.invalid_argument
          else if loadOk then Completion.set_value ()
          else Completion.set_error (Error.exception_ptr "Failed to load texture from image")]) ∧
    (∀ (α : Type) [Add α] [Sub α] [Mul α] [Div α] [One α] [NatCast α] [IntCast α]
      [OfScientific α] (fault : Option (SfmlEventHandler.Call × String))
      (self : SfmlEventHandler.OperationState α),
      (SfmlEventHandler.start fault self).receiver_ = self.receiver_ ++
        [match (SfmlEventHandler.tryBlock fault self).1 with
          | Flow.returned => Completion.set_value ()
          | Flow.thrown what => Completion.set_error (Error.exception_ptr what)]) ∧
    (∀ (α : Type) [Add α] [Sub α] [Mul α] [Div α] [One α] [NatCast α] [IntCast α]
      [OfScientific α] (self : SfmlEventHandler.OperationState α),
      SfmlEventHandler.start none self =
        { SfmlEventHandler.HandleContinuousZoom (SfmlEventHandler.HandleEvents self) with
          receiver_ := self.receiver_ ++ [Completion.set_value ()] }) ∧
    (∀ (α : Type) [Add α] [Sub α] [Mul α] [Div α] [One α] [NatCast α] [IntCast α]
      [OfScientific α] (what : String) (self : SfmlEventHandler.OperationState α),
      SfmlEventHandler.start (some (SfmlEventHandler.Call.pollEvent 0, what)) self =
        { self with
          receiver_ := self.receiver_ ++ [Completion.set_error (Error.exception_ptr what)] }) := by
  refine ⟨?_, ?_, ?_, ?_⟩
  · intro loadOk self
    cases hcd : self.render_result_.color_data with
    | nil =>
      rw [if_pos rfl]
      simp [SFMLRender.start, SFMLRender.tryBlock_empty loadOk self hcd]
    | cons first rest =>
      rw [if_neg (by simp)]
      cases hfirst : first with
      | nil =>
        subst hfirst
        simp [SFMLRender.start, SFMLRender.tryBlock_zero_width loadOk self rest hcd]
      | cons c cs =>
        subst hfirst
        have := (SFMLRender.start_render loadOk self (c :: cs) rest hcd (by simp)).2
        rw [this]
        simp
  · intro α _ _ _ _ _ _ _ _ fault self
    have h := SfmlEventHandler.tryBlock_receiver fault self
    unfold SfmlEventHandler.start
    rcases hT : SfmlEventHandler.tryBlock fault self with ⟨f, s⟩
    rw [hT] at h
    cases f with
    | returned => exact h
    | thrown what =>
      show s.receiver_ ++ [Completion.set_error (Error.exception_ptr what)] = _
      rw [show s.receiver_ = self.receiver_ from h]
  · intro α _ _ _ _ _ _ _ _ self
    have hE : SfmlEventHandler.HandleEvents_throwing none self =
        (Flow.returned, SfmlEventHandler.HandleEvents self) :=
      SfmlEventHandler.pollLoop_throwing_none _ _ _
    have hr : (SfmlEventHandler.HandleContinuousZoom (SfmlEventHandler.HandleEvents self)).receiver_
        = self.receiver_ := by
      rw [SfmlEventHandler.HandleContinuousZoom_receiver, SfmlEventHandler.HandleEvents,
        SfmlEventHandler.pollLoop_receiver]
    simp only [SfmlEventHandler.start, SfmlEventHandler.tryBlock, hE,
      SfmlEventHandler.HandleContinuousZoom_throwing_none, hr]
  · intro α _ _ _ _ _ _ _ _ what self
    have hE : SfmlEventHandler.HandleEvents_throwing
        (some (SfmlEventHandler.Call.pollEvent 0, what)) self = (Flow.thrown what, self) := by
      unfold SfmlEventHandler.HandleEvents_throwing
      cases self.window_.events <;>
        simp [SfmlEventHandler.pollLoop_throwing, SfmlEventHandler.thrownBy]
    simp only [SfmlEventHandler.start, SfmlEventHandler.tryBlock, hE]

/-! ## Properties of the computation pipeline -/

/-- The kernel's count never exceeds `max_iterations`. -/
theorem EscapeTimeKernel.iterate_le {α : Type} [Add α] [Sub α] [Mul α] [NatCast α] [LT α]
    [DecidableRel (fun (a b : α) => a < b)] (c_re c_im : α) (max_iterations : Nat) (k : Nat)
    (z_re z_im : α) :
    EscapeTimeKernel.iterate c_re c_im max_iterations k z_re z_im ≤ max_iterations := by
  induction k generalizing z_re z_im with
  | zero => exact le_refl _
  | succ k ih =>
    simp only [EscapeTimeKernel.iterate]
    split
    · exact Nat.sub_le _ _
    · exact ih _ _

/-- C4: for every viewport, settings and region with `start_row < end_row` and
`start_col < end_col` inside the frame, the sender of `MakeMandelbrotSender`
completes with `set_value` carrying a matrix with exactly `end_row - start_row`
rows, each of exactly `end_col - start_col` entries, each entry at most
`max_iterations` (and at least 0, being a count). -/
theorem MakeMandelbrotSender_value_matrix {α : Type} [Add α] [Sub α] [Mul α] [Div α]
    [NatCast α] [LT α] [DecidableRel (fun (a b : α) => a < b)] (viewport : ViewPort α)
    (settings : RenderSettings) (region : PixelRegion)
    (hrow : region.start_row < region.end_row) (hcol : region.start_col < region.end_col)
    (hrows : region.end_row ≤ settings.height) (hcols : region.end_col ≤ settings.width) :
    ∃ matrix : PixelMatrix,
      MakeMandelbrotSender viewport settings region = Completion.set_value matrix ∧
      matrix.length = region.end_row - region.start_row ∧
      ∀ row ∈ matrix, row.length = region.end_col - region.start_col ∧
        ∀ count ∈ row, 0 ≤ count ∧ count ≤ settings.max_iterations := by
  refine ⟨RegionEvaluator viewport settings region, ?_, ?_, ?_⟩
  · have hwf : region.start_row ≤ region.end_row ∧ region.end_row ≤ settings.height ∧
        region.start_col ≤ region.end_col ∧ region.end_col ≤ settings.width := by omega
    simp only [MakeMandelbrotSender, if_pos hwf]
  · simp [RegionEvaluator]
  · intro row hrow
    simp only [RegionEvaluator, List.mem_map] at hrow
    obtain ⟨r, -, rfl⟩ := hrow
    refine ⟨by simp, ?_⟩
    intro count hcount
    simp only [List.mem_map] at hcount
    obtain ⟨c, -, rfl⟩ := hcount
    exact ⟨Nat.zero_le _, EscapeTimeKernel.iterate_le _ _ _ _ _ _⟩

/-- C4 at the region `{0, 2, 0, 2}` of the test, in an 800 by 600 frame. -/
theorem MakeMandelbrotSender_value_matrix_witness :
    ∃ matrix : PixelMatrix,
      MakeMandelbrotSender (⟨-2, 1, -1, 1⟩ : ViewPort ℚ) ⟨800, 600, 100⟩ ⟨0, 2, 0, 2⟩ =
        Completion.set_value matrix ∧
      matrix.length = 2 - 0 ∧
      ∀ row ∈ matrix, row.length = 2 - 0 ∧ ∀ count ∈ row, 0 ≤ count ∧ count ≤ 100 :=
  MakeMandelbrotSender_value_matrix (⟨-2, 1, -1, 1⟩ : ViewPort ℚ) ⟨800, 600, 100⟩ ⟨0, 2, 0, 2⟩
    (by decide) (by decide) (by decide) (by decide)

/-- The frame computation is stopped only when the session is torn down. -/
theorem ComputeFrame_not_stopped {α : Type} [Add α] [Sub α] [Mul α] [Div α] [NatCast α] [LT α]
    [DecidableRel (fun (a b : α) => a < b)] (viewport : ViewPort α) (settings : RenderSettings) :
    ComputeFrame false viewport settings ≠ Completion.set_stopped := by
  unfold ComputeFrame
  rw [if_neg (by decide)]
  split
  · exact fun h => Completion.noConfusion h
  · split
    · exact fun h => Completion.noConfusion h
    · exact fun h => Completion.noConfusion h

/-- C5: for every `AppState` and `RenderSettings`, a started
`CalculateMandelbrotAsyncSender` operation makes exactly one completion call,
and when that call is `set_value` or `set_error` then `need_rerender` is false
afterwards.  The call is one of these two unless the session is torn down. -/
theorem CalculateMandelbrotAsyncSender.need_rerender_cleared {α : Type} [Add α] [Sub α] [Mul α]
    [Div α] [NatCast α] [LT α] [DecidableRel (fun (a b : α) => a < b)] (stop : Bool)
    (self : CalculateMandelbrotAsyncSender.OperationState α) :
    ∃ c : Completion RenderResult,
      (CalculateMandelbrotAsyncSender.start stop self).receiver_ = self.receiver_ ++ [c] ∧
      (stop = false → c ≠ Completion.set_stopped) ∧
      (c ≠ Completion.set_stopped →
        (CalculateMandelbrotAsyncSender.start stop self).state_.need_rerender = false) := by
  unfold CalculateMandelbrotAsyncSender.start
  dsimp only
  split
  · exact ⟨_, rfl, fun _ h => Completion.noConfusion h, fun _ => rfl⟩
  · exact ⟨_, rfl, fun _ h => Completion.noConfusion h, fun _ => rfl⟩
  · rename_i hstopped
    refine ⟨_, rfl, fun hs _ => ?_, fun h => absurd rfl h⟩
    subst hs
    exact ComputeFrame_not_stopped _ _ hstopped

/-- C5 at a 2 by 2 frame that asks for a render and is not torn down. -/
theorem CalculateMandelbrotAsyncSender.need_rerender_cleared_witness :
    ∃ c : Completion RenderResult,
      (CalculateMandelbrotAsyncSender.start false
        (CalculateMandelbrotAsyncSenderTest.op_state ⟨-2, 1, -1, 1⟩ ⟨2, 2, 3⟩)).receiver_ =
          [] ++ [c] ∧
      c ≠ Completion.set_stopped ∧
      (CalculateMandelbrotAsyncSender.start false
        (CalculateMandelbrotAsyncSenderTest.op_state ⟨-2, 1, -1, 1⟩ ⟨2, 2, 3⟩)).state_.need_rerender
          = false :=
  (CalculateMandelbrotAsyncSender.need_rerender_cleared false
    (CalculateMandelbrotAsyncSenderTest.op_state ⟨-2, 1, -1, 1⟩ ⟨2, 2, 3⟩)).imp
    fun _ h => ⟨h.1, h.2.1 rfl, h.2.2 (h.2.1 rfl)⟩

end Mandelbrot
